import Mathlib

/-!
# Verification of the HillMonitor JSR client's request-dispatch core

Shallow embedding of the repository's request-routing and verification
logic:

* `src/src/webhook/verification.ts` — `verifyWebhookSignature` (HMAC-SHA256
  signature check over the raw webhook body).
* `src/src/webhook/types.ts` — `serveWebhook` (webhook pipeline) and
  `serveResource` (CRUD routing pipeline) together with
  `extractResourceId`, `paramsToObject`, `createDefaultHandlers`,
  `getEnabledOperations`.
* `src/src/platform-client.ts` — `platformRequest` (outbound proxy call
  construction, user-id injection, timeout handling).
* `src/src/response.ts` — the JSON response helpers.

Platform built-ins (the `fetch` transport, `JSON.parse`, WebCrypto's
HMAC) are modelled as explicit parameters or as executable Lean
implementations of the algorithms the code requests (SHA-256 / HMAC are
implemented in full below so that digests can be computed by the
kernel).  JavaScript semantics that the code relies on (string
truthiness, `URLSearchParams.set`, object spread) are embedded as
explicitly-named helper functions.
-/

/-- JSON values as produced by `JSON.parse` / consumed by
`JSON.stringify`.  Numbers are modelled as integers: every number the
claims exercise is integral, and floating point is outside the
embedding. -/
inductive Json where
  | null : Json
  | bool (b : Bool) : Json
  | num (n : Int) : Json
  | str (s : String) : Json
  | arr (elems : List Json) : Json
  | obj (fields : List (String × Json)) : Json

/-- A JavaScript object value (`Record<string, unknown>` in the source):
insertion-ordered key/value fields. -/
abbrev JsObject := List (String × Json)

/-- Truthiness of an optional string, as JavaScript's `if (s)`:
`null`/`undefined` and the empty string are falsy. -/
def strTruthy : Option String → Bool
  | none => false
  | some s => s ≠ ""

/-- JavaScript object update as performed by the spread
`{...obj, key: value}` (and equally by assignment): if the key is
already present its value is overwritten in place, otherwise the
key/value pair is appended at the end. -/
def jsObjectSet (fields : JsObject) (key : String) (value : Json) : JsObject :=
  if fields.any (fun p => p.1 = key) then
    fields.map (fun p => if p.1 = key then (key, value) else p)
  else
    fields ++ [(key, value)]

/-- `URLSearchParams.set(key, value)`: replaces the value of the first
pair with the given key and removes every later pair with that key;
appends the pair when the key is absent. -/
def searchParamsSet : List (String × String) → String → String → List (String × String)
  | [], key, value => [(key, value)]
  | (k, v) :: rest, key, value =>
    if k = key then (key, value) :: rest.filter (fun p => p.1 ≠ key)
    else (k, v) :: searchParamsSet rest key value

/-- `String.prototype.startsWith` of JavaScript, on the character
list.  All strings the source compares are ASCII, where UTF-16 code
units and characters coincide. -/
def jsStartsWith (s prefixStr : String) : Bool :=
  prefixStr.data.isPrefixOf s.data

/-- `String.prototype.slice(n)` of JavaScript (ASCII inputs, so code
units and characters coincide). -/
def jsSlice (s : String) (n : Nat) : String :=
  ⟨s.data.drop n⟩

/-! ## HTTP responses (`src/src/response.ts`) -/

/-- The parts of a `Response` the handlers construct and the spec talks
about: status, JSON body (`none` for a bodiless 204/preflight), and the
headers attached. -/
structure HttpResponse where
  status : Nat
  body : Option Json
  headers : List (String × String)

/-- `jsonResponse(data, status, corsHeaders)`. -/
def jsonResponse (data : Json) (status : Nat) (corsHeaders : List (String × String)) :
    HttpResponse :=
  { status := status
    body := some data
    headers := corsHeaders ++ [("Content-Type", "application/json")] }

/-- `successResponse(data, corsHeaders)` — 200 OK. -/
def successResponse (data : Json) (corsHeaders : List (String × String)) : HttpResponse :=
  jsonResponse data 200 corsHeaders

/-- `noContentResponse(corsHeaders)` — 204, no body. -/
def noContentResponse (corsHeaders : List (String × String)) : HttpResponse :=
  { status := 204, body := none, headers := corsHeaders }

/-- `errorResponse(message, status, corsHeaders, details?)`.  `isDev`
is the `ENVIRONMENT=development` flag read from the environment;
details are attached only in development mode and when non-empty
(JavaScript truthiness of the `details` string). -/
def errorResponse (isDev : Bool) (message : String) (status : Nat)
    (corsHeaders : List (String × String)) (details : Option String) : HttpResponse :=
  jsonResponse
    (Json.obj ([("error", Json.str message)] ++
      (if isDev ∧ strTruthy details then [("details", Json.str (details.getD ""))] else [])))
    status corsHeaders

/-- `badRequestResponse(message, corsHeaders)` — 400. -/
def badRequestResponse (isDev : Bool) (message : String)
    (corsHeaders : List (String × String)) : HttpResponse :=
  errorResponse isDev message 400 corsHeaders none

/-- `unauthorizedResponse(corsHeaders)` — 401. -/
def unauthorizedResponse (isDev : Bool) (corsHeaders : List (String × String)) : HttpResponse :=
  errorResponse isDev "Unauthorized" 401 corsHeaders none

/-- `methodNotAllowedResponse(corsHeaders)` — 405. -/
def methodNotAllowedResponse (isDev : Bool) (corsHeaders : List (String × String)) :
    HttpResponse :=
  errorResponse isDev "Method not allowed" 405 corsHeaders none

/-- `serverErrorResponse(corsHeaders, error?)` — 500; in development the
error's message and string form are surfaced. -/
def serverErrorResponse (isDev : Bool) (corsHeaders : List (String × String))
    (error : Option (String × String)) : HttpResponse :=
  errorResponse isDev
    (match error with
      | some e => if isDev then e.1 else "Internal server error"
      | none => "Internal server error")
    500 corsHeaders
    (match error with
      | some e => if isDev then some e.2 else none
      | none => none)

/-! ## Resource id extraction (`src/src/webhook/types.ts`, `extractResourceId`) -/

/-- Helper for `jsSplit`: splits a character list at every occurrence
of the separator, keeping empty pieces, accumulating the current piece
in reverse. -/
def jsSplitAux (sep : Char) : List Char → List Char → List (List Char)
  | [], acc => [acc.reverse]
  | c :: rest, acc =>
    if c = sep then acc.reverse :: jsSplitAux sep rest []
    else jsSplitAux sep rest (c :: acc)

/-- JavaScript `String.prototype.split` with a single-character
separator: splits at every occurrence, keeping empty pieces (so
`"/a/b/".split('/') = ["", "a", "b", ""]`). -/
def jsSplit (s : String) (sep : Char) : List String :=
  (jsSplitAux sep s.data []).map fun cs => ⟨cs⟩

/-- `extractResourceId`: split the URL pathname on `/`, drop empty
segments (`filter(Boolean)`), and return the last segment when at least
two segments remain, else `null`. -/
def extractResourceId (pathname : String) : Option String :=
  let pathParts := (jsSplit pathname '/').filter (fun s => s ≠ "")
  if pathParts.length ≥ 2 then pathParts.getLast? else none

example : extractResourceId "/collection/42" = some "42" := by decide
example : extractResourceId "/collection/" = none := by decide
example : extractResourceId "/collection" = none := by decide
example : extractResourceId "/a/b/c/" = some "c" := by decide

/-! ## SHA-256 and HMAC (the algorithm `crypto.subtle` is asked for in
`src/src/webhook/verification.ts`) -/

/-- Truncation to a 32-bit word. -/
def w32 (n : Nat) : Nat := n % 4294967296

/-- 32-bit right rotation. -/
def rotr32 (x n : Nat) : Nat := w32 ((x >>> n) ||| (x <<< (32 - n)))

/-- 32-bit bitwise complement. -/
def not32 (x : Nat) : Nat := x ^^^ 4294967295

/-- The SHA-256 round constants. -/
def sha256K : List Nat :=
  [1116352408, 1899447441, 3049323471, 3921009573, 961987163,
   1508970993, 2453635748, 2870763221, 3624381080, 310598401,
   607225278, 1426881987, 1925078388, 2162078206, 2614888103,
   3248222580, 3835390401, 4022224774, 264347078, 604807628,
   770255983, 1249150122, 1555081692, 1996064986, 2554220882,
   2821834349, 2952996808, 3210313671, 3336571891, 3584528711,
   113926993, 338241895, 666307205, 773529912, 1294757372,
   1396182291, 1695183700, 1986661051, 2177026350, 2456956037,
   2730485921, 2820302411, 3259730800, 3345764771, 3516065817,
   3600352804, 4094571909, 275423344, 430227734, 506948616,
   659060556, 883997877, 958139571, 1322822218, 1537002063,
   1747873779, 1955562222, 2024104815, 2227730452, 2361852424,
   2428436474, 2756734187, 3204031479, 3329325298]

/-- The SHA-256 working state: eight 32-bit words. -/
structure Sha256State where
  a : Nat
  b : Nat
  c : Nat
  d : Nat
  e : Nat
  f : Nat
  g : Nat
  h : Nat

/-- The SHA-256 initial hash value. -/
def sha256Init : Sha256State :=
  ⟨1779033703, 3144134277, 1013904242, 2773480762, 1359893119, 2600822924, 528734635, 1541459225⟩

/-- One SHA-256 compression round with round constant `k` and schedule
word `w`. -/
def sha256Round (s : Sha256State) (kw : Nat × Nat) : Sha256State :=
  let S1 := (rotr32 s.e 6) ^^^ (rotr32 s.e 11) ^^^ (rotr32 s.e 25)
  let ch := (s.e &&& s.f) ^^^ ((not32 s.e) &&& s.g)
  let temp1 := w32 (s.h + S1 + ch + kw.1 + kw.2)
  let S0 := (rotr32 s.a 2) ^^^ (rotr32 s.a 13) ^^^ (rotr32 s.a 22)
  let maj := (s.a &&& s.b) ^^^ (s.a &&& s.c) ^^^ (s.b &&& s.c)
  let temp2 := w32 (S0 + maj)
  ⟨w32 (temp1 + temp2), s.a, s.b, s.c, w32 (s.d + temp1), s.e, s.f, s.g⟩

/-- Big-endian 32-bit words from a byte list (4 bytes per word). -/
def bytesToWords : List Nat → List Nat
  | b0 :: b1 :: b2 :: b3 :: rest =>
    (b0 <<< 24 ||| b1 <<< 16 ||| b2 <<< 8 ||| b3) :: bytesToWords rest
  | _ => []

/-- Extends the 16 block words to the 64-word message schedule. -/
def sha256Schedule (w16 : Array Nat) : Array Nat :=
  Nat.fold (fun i (acc : Array Nat) =>
    let j := i + 16
    let w15 := acc.getD (j - 15) 0
    let w2 := acc.getD (j - 2) 0
    let s0 := (rotr32 w15 7) ^^^ (rotr32 w15 18) ^^^ (w15 >>> 3)
    let s1 := (rotr32 w2 17) ^^^ (rotr32 w2 19) ^^^ (w2 >>> 10)
    acc.push (w32 (acc.getD (j - 16) 0 + s0 + acc.getD (j - 7) 0 + s1))) 48 w16

/-- Compresses one 64-byte block into the running hash state. -/
def sha256Compress (s : Sha256State) (block : List Nat) : Sha256State :=
  let w := sha256Schedule (bytesToWords block).toArray
  let t := (sha256K.zip w.toList).foldl sha256Round s
  ⟨w32 (s.a + t.a), w32 (s.b + t.b), w32 (s.c + t.c), w32 (s.d + t.d),
   w32 (s.e + t.e), w32 (s.f + t.f), w32 (s.g + t.g), w32 (s.h + t.h)⟩

/-- SHA-256 message padding: `0x80`, zeros to 56 mod 64, then the
bit length as a 64-bit big-endian integer. -/
def sha256Pad (msg : List Nat) : List Nat :=
  let len := msg.length
  let zeros := (119 - len % 64) % 64
  msg ++ [0x80] ++ List.replicate zeros 0 ++
    (List.range 8).map (fun i => (len * 8) >>> ((7 - i) * 8) % 256)

/-- A 32-bit word as four big-endian bytes. -/
def wordToBytes (w : Nat) : List Nat :=
  [(w >>> 24) % 256, (w >>> 16) % 256, (w >>> 8) % 256, w % 256]

/-- SHA-256 of a byte list, as a 32-byte list. -/
def sha256Bytes (msg : List Nat) : List Nat :=
  let padded := sha256Pad msg
  let blocks := padded.length / 64
  let s := (List.range blocks).foldl
    (fun st i => sha256Compress st ((padded.drop (64 * i)).take 64)) sha256Init
  wordToBytes s.a ++ wordToBytes s.b ++ wordToBytes s.c ++ wordToBytes s.d ++
    wordToBytes s.e ++ wordToBytes s.f ++ wordToBytes s.g ++ wordToBytes s.h

/-- The hex digit characters `0-9a-f`. -/
def hexDigitChar (n : Nat) : Char :=
  if n < 10 then Char.ofNat (48 + n) else Char.ofNat (87 + n)

/-- A byte as two lowercase hex characters — the source's
`b.toString(16).padStart(2, '0')`. -/
def byteToHex (b : Nat) : String :=
  ⟨[hexDigitChar (b / 16), hexDigitChar (b % 16)]⟩

/-- A byte list as a lowercase hex string — the source's
`Array.from(bytes).map(toHex).join('')`. -/
def bytesToHex (bytes : List Nat) : String :=
  String.join (bytes.map byteToHex)

/-- UTF-8 encoding of one character (the `TextEncoder` used by the
source). -/
def utf8EncodeCharBytes (c : Char) : List Nat :=
  let n := c.toNat
  if n < 0x80 then [n]
  else if n < 0x800 then [0xc0 ||| (n >>> 6), 0x80 ||| (n &&& 0x3f)]
  else if n < 0x10000 then
    [0xe0 ||| (n >>> 12), 0x80 ||| ((n >>> 6) &&& 0x3f), 0x80 ||| (n &&& 0x3f)]
  else
    [0xf0 ||| (n >>> 18), 0x80 ||| ((n >>> 12) &&& 0x3f),
     0x80 ||| ((n >>> 6) &&& 0x3f), 0x80 ||| (n &&& 0x3f)]

/-- UTF-8 bytes of a string (`new TextEncoder().encode(s)`). -/
def strBytes (s : String) : List Nat :=
  (s.data.map utf8EncodeCharBytes).flatten

/-- HMAC-SHA256 over byte lists (the WebCrypto `HMAC`/`SHA-256`
combination imported and signed with in the source). -/
def hmacSha256 (key msg : List Nat) : List Nat :=
  let k0 := if key.length > 64 then sha256Bytes key else key
  let kPadded := k0 ++ List.replicate (64 - k0.length) 0
  let ipad := kPadded.map (fun b => b ^^^ 0x36)
  let opad := kPadded.map (fun b => b ^^^ 0x5c)
  sha256Bytes (opad ++ sha256Bytes (ipad ++ msg))

/-- The hex HMAC-SHA256 digest of `payload` under `secret`, exactly as
`verifyWebhookSignature` computes its `expectedSignature`. -/
def hmacSha256Hex (secret payload : String) : String :=
  bytesToHex (hmacSha256 (strBytes secret) (strBytes payload))


/-! ## Signature verification (`src/src/webhook/verification.ts`) -/

/-- The three failures `verifyWebhookSignature` can throw, in source
order: `'Missing webhook signature'`, `'Invalid signature format:
expected sha256= prefix'`, `'Invalid webhook signature'`. -/
inductive SignatureError where
  | missingSignature : SignatureError
  | invalidFormat : SignatureError
  | invalidSignature : SignatureError
deriving Repr, DecidableEq

/-- `verifyWebhookSignature(payload, signature, secret)`.

The guard `if (!signature)` fires on both `null` and the empty string
(JavaScript falsiness).  The header must carry a `"sha256="` prefix;
the hex digest after the prefix is compared for equality with the
HMAC-SHA256 hex digest of the payload under the secret.  Throws are
modelled as `Except.error`. -/
def verifyWebhookSignature (payload : String) (signature : Option String)
    (secret : String) : Except SignatureError Unit :=
  if ¬ strTruthy signature then
    .error .missingSignature
  else
    let sig := signature.getD ""
    if ¬ jsStartsWith sig "sha256=" then
      .error .invalidFormat
    else
      let receivedSignature := jsSlice sig 7
      let expectedSignature := hmacSha256Hex secret payload
      if receivedSignature ≠ expectedSignature then
        .error .invalidSignature
      else
        .ok ()

/-! ## Webhook pipeline (`src/src/webhook/types.ts`, `serveWebhook`).

The embedded variant is the one the claims cite: event tags
`meeting.processed` and `gazette.processed`, signature header
`X-HillMonitor-Signature`, CORS defaulting to
`getDefaultCorsHandler()`. -/

/-- A CORS handler as produced by `createCorsHandler` — an external
collaborator, kept abstract as its two capabilities. -/
structure CorsHandler where
  getCorsHeaders : Option String → List (String × String)
  handleCorsPrelight : Option String → HttpResponse

/-- Undefined-able property read `obj.key` on a parsed JSON value:
`none` is JavaScript `undefined`. -/
def jsGet : Json → String → Option Json
  | Json.obj fields, key => fields.lookup key
  | _, _ => none

/-- A JavaScript error value, by its `name` (and message). -/
structure JsError where
  name : String
  message : String
deriving Repr, DecidableEq

/-- Reads property `key` of a possibly-absent value; reading a property
of `undefined` or `null` throws a `TypeError`. -/
def jsGetChecked (v : Option Json) (key : String) : Except JsError (Option Json) :=
  match v with
  | none => .error ⟨"TypeError", "Cannot read properties of undefined"⟩
  | some Json.null => .error ⟨"TypeError", "Cannot read properties of null"⟩
  | some j => .ok (jsGet j key)

/-- A webhook callback invocation recorded by the model: which callback
ran and the argument it received (`payload.data.meeting_id` for
meetings, `payload.data` for gazettes). -/
inductive WebhookCall where
  | meetingProcessed (arg : Option Json) : WebhookCall
  | gazetteProcessed (arg : Option Json) : WebhookCall

/-- `serveWebhook` configuration after the `??` defaults are applied:
the effective CORS handler (`config.cors ?? getDefaultCorsHandler()`),
the effective secret (`config.secret ??
Deno.env.get('HILLMONITOR_WEBHOOK_SECRET')`), and the two optional
callbacks.  A callback is user code: it is modelled as a pure function
from its argument to either success or a thrown error. -/
structure WebhookConfig where
  cors : Option CorsHandler
  secret : Option String
  onMeetingProcessed : Option (Option Json → Except JsError Unit)
  onGazetteProcessed : Option (Option Json → Except JsError Unit)

/-- The request data the webhook handler reads: method, `Origin`
header, `X-HillMonitor-Signature` header, and the raw body text. -/
structure WebhookRequest where
  method : String
  origin : Option String
  signature : Option String
  bodyText : String

/-- One invocation of the `Deno.serve` handler installed by
`serveWebhook`, returning the response together with the list of
callback invocations it performed.  `parseJson` stands for the
platform's `JSON.parse` (`none` models a parse throw); `isDev` is the
development-mode flag of the response helpers. -/
def serveWebhookHandle (cfg : WebhookConfig) (parseJson : String → Option Json)
    (isDev : Bool) (req : WebhookRequest) : HttpResponse × List WebhookCall :=
  let corsHeaders := match cfg.cors with
    | some c => c.getCorsHeaders req.origin
    | none => []
  if h : req.method = "OPTIONS" ∧ cfg.cors.isSome then
    ((cfg.cors.get h.2).handleCorsPrelight req.origin, [])
  else if req.method ≠ "POST" then
    (methodNotAllowedResponse isDev corsHeaders, [])
  else if ¬ strTruthy cfg.secret then
    (serverErrorResponse isDev corsHeaders none, [])
  else
    let secret := cfg.secret.getD ""
    match verifyWebhookSignature req.bodyText req.signature secret with
    | .error _ => (unauthorizedResponse isDev corsHeaders, [])
    | .ok () =>
      match parseJson req.bodyText with
      | none => (badRequestResponse isDev "Invalid JSON payload" corsHeaders, [])
      | some payload =>
        -- switch (payload.event): reading `.event` on a payload that
        -- parsed to JSON null throws a TypeError, which the outer
        -- catch converts to the 500 server-error response
        match jsGetChecked (some payload) "event" with
        | .error e => (serverErrorResponse isDev corsHeaders (some (e.name, e.message)), [])
        | .ok ev =>
          match ev with
          | some (Json.str "meeting.processed") =>
            (match cfg.onMeetingProcessed with
              | none =>
                (successResponse (Json.obj [("received", Json.bool true)]) corsHeaders, [])
              | some cb =>
                match jsGetChecked (jsGet payload "data") "meeting_id" with
                | .error e =>
                  (serverErrorResponse isDev corsHeaders (some (e.name, e.message)), [])
                | .ok arg =>
                  match cb arg with
                  | .ok () =>
                    (successResponse (Json.obj [("received", Json.bool true)]) corsHeaders,
                     [WebhookCall.meetingProcessed arg])
                  | .error e =>
                    (serverErrorResponse isDev corsHeaders (some (e.name, e.message)),
                     [WebhookCall.meetingProcessed arg]))
          | some (Json.str "gazette.processed") =>
            (match cfg.onGazetteProcessed with
              | none =>
                (successResponse (Json.obj [("received", Json.bool true)]) corsHeaders, [])
              | some cb =>
                match cb (jsGet payload "data") with
                | .ok () =>
                  (successResponse (Json.obj [("received", Json.bool true)]) corsHeaders,
                   [WebhookCall.gazetteProcessed (jsGet payload "data")])
                | .error e =>
                  (serverErrorResponse isDev corsHeaders (some (e.name, e.message)),
                   [WebhookCall.gazetteProcessed (jsGet payload "data")]))
          | _ =>
            -- default: console.warn, no dispatch
            (successResponse (Json.obj [("received", Json.bool true)]) corsHeaders, [])

/-! ## Platform client (`src/src/platform-client.ts`, `platformRequest`) -/

/-- `REQUEST_TIMEOUT_MS` — the hard bound after which the outbound call
is aborted. -/
def REQUEST_TIMEOUT_MS : Nat := 30000

/-- `PlatformRequestOptions`.  Param values are modelled post
`String(value)` conversion, with `none` standing for the `undefined` /
`null` values the builder skips; the body is the JSON object the TS
type `Record<string, unknown>` declares. -/
structure PlatformRequestOptions where
  path : String
  method : String
  params : List (String × Option String) := []
  body : Option JsObject := none
  userId : Option String := none

/-- `PlatformResponse`: `data` is `Json.null` when the source holds
`null`. -/
structure PlatformResponse where
  data : Json
  status : Nat
  error : Option String := none

/-- The `params` loop: `searchParams.append(key, String(value))` for
every entry whose value is neither `undefined` nor `null`, in entry
order. -/
def appendDefinedParams (params : List (String × Option String)) : List (String × String) :=
  params.filterMap (fun p => p.2.map (fun v => (p.1, v)))

/-- The query-string construction of `platformRequest`: user params
first, then `searchParams.set('external_user_id', userId)` when the
method is `GET`, user filtering is on, and the user id is truthy. -/
def outboundQuery (method : String) (filterByUser : Bool) (userId : Option String)
    (params : List (String × Option String)) : List (String × String) :=
  let searchParams := appendDefinedParams params
  if method = "GET" ∧ filterByUser ∧ strTruthy userId then
    searchParamsSet searchParams "external_user_id" (userId.getD "")
  else
    searchParams

/-- The request-body preparation of `platformRequest`: for
`POST`/`PATCH`/`PUT` with a non-null body, user filtering on and a
truthy user id, the body is spread with `external_user_id` set to the
user id; otherwise the body is passed through unchanged. -/
def outboundBody (method : String) (filterByUser : Bool) (userId : Option String)
    (body : Option JsObject) : Option JsObject :=
  if (method = "POST" ∨ method = "PATCH" ∨ method = "PUT") ∧
      body.isSome ∧ filterByUser ∧ strTruthy userId then
    body.map (fun b => jsObjectSet b "external_user_id" (Json.str (userId.getD "")))
  else
    body

/-- `URLSearchParams.toString()` without percent-encoding (the values
the claims exercise need none). -/
def encodeQuery (searchParams : List (String × String)) : String :=
  String.intercalate "&" (searchParams.map (fun p => p.1 ++ "=" ++ p.2))

/-- JSON string escaping for `JSON.stringify` (quote and backslash). -/
def jsonEscape (s : String) : String :=
  ⟨(s.data.map (fun c =>
    if c = '"' then ['\\', '"'] else if c = '\\' then ['\\', '\\'] else [c])).flatten⟩

mutual

/-- `JSON.stringify` on the JSON model. -/
def jsonStringify : Json → String
  | Json.null => "null"
  | Json.bool true => "true"
  | Json.bool false => "false"
  | Json.num n => toString n
  | Json.str s => "\"" ++ jsonEscape s ++ "\""
  | Json.arr elems => "[" ++ jsonStringifyElems elems ++ "]"
  | Json.obj fields => "\x7b" ++ jsonStringifyFields fields ++ "\x7d"

/-- Comma-separated serialization of array elements. -/
def jsonStringifyElems : List Json → String
  | [] => ""
  | [j] => jsonStringify j
  | j :: rest => jsonStringify j ++ "," ++ jsonStringifyElems rest

/-- Comma-separated serialization of object fields. -/
def jsonStringifyFields : List (String × Json) → String
  | [] => ""
  | [(k, v)] => "\"" ++ jsonEscape k ++ "\":" ++ jsonStringify v
  | (k, v) :: rest =>
    "\"" ++ jsonEscape k ++ "\":" ++ jsonStringify v ++ "," ++ jsonStringifyFields rest

end

/-- The argument `platformRequest` hands to `fetch`: URL, method,
headers, and serialized body (`undefined` when the prepared body is
absent). -/
structure FetchRequest where
  url : String
  method : String
  headers : List (String × String)
  body : Option String

/-- The outcome of the platform `fetch`: a completed response (status
and raw text), or a rejection carrying a JavaScript error — an
`AbortError` when the 30-second abort signal fired, any other error for
the remaining transport faults. -/
inductive FetchOutcome where
  | success (status : Nat) (responseText : String) : FetchOutcome
  | failure (e : JsError) : FetchOutcome

/-- The `fetch` request `platformRequest` constructs, from the
environment (`HILLMONITOR_API_URL`, `HILLMONITOR_SECRET_KEY`,
`HILLMONITOR_FILTER_BY_USER`) and the options. -/
def outboundFetchRequest (apiUrl secretKey : String) (filterByUser : Bool)
    (options : PlatformRequestOptions) : FetchRequest :=
  let searchParams := outboundQuery options.method filterByUser options.userId options.params
  let queryString := encodeQuery searchParams
  let fullPath := if queryString ≠ "" then options.path ++ "?" ++ queryString else options.path
  let requestBody := outboundBody options.method filterByUser options.userId options.body
  { url := apiUrl ++ fullPath
    method := options.method
    headers := [("Authorization", "Bearer " ++ secretKey),
                ("Content-Type", "application/json"),
                ("Accept", "application/json")]
    body := requestBody.map (fun b => jsonStringify (Json.obj b)) }

/-- `platformRequest`.  `fetch` is the platform transport; `parseJson`
is `JSON.parse` (`none` models a parse throw).  A completed response is
read as text and JSON-parsed, falling back to the raw text; a rejection
named `AbortError` becomes the 504 timeout result; every other
rejection is re-thrown (`Except.error`). -/
def platformRequest (apiUrl secretKey : String) (filterByUser : Bool)
    (fetch : FetchRequest → FetchOutcome) (parseJson : String → Option Json)
    (options : PlatformRequestOptions) : Except JsError PlatformResponse :=
  match fetch (outboundFetchRequest apiUrl secretKey filterByUser options) with
  | .success status responseText =>
    let data :=
      if responseText ≠ "" then
        match parseJson responseText with
        | some j => j
        | none => Json.str responseText
      else Json.null
    .ok { data := data, status := status }
  | .failure e =>
    if e.name = "AbortError" then
      .ok { data := Json.null, status := 504, error := some "Request timeout" }
    else
      .error e

/-! ## CRUD router (`src/src/webhook/types.ts`, `serveResource`) -/

/-- The five CRUD operations. -/
inductive Op where
  | list : Op
  | get : Op
  | create : Op
  | update : Op
  | delete : Op
deriving Repr, DecidableEq

/-- The `operations` configuration value, after the `= 'all'`
destructuring default. -/
inductive OperationsSpec where
  | all : OperationsSpec
  | read : OperationsSpec
  | explicit (ops : List Op) : OperationsSpec

/-- `getEnabledOperations`: `'all'` enables the five, `'read'` enables
`list` and `get`, an explicit array enables its members. -/
def getEnabledOperations : OperationsSpec → Op → Bool
  | .all, _ => true
  | .read, op => op == Op.list || op == Op.get
  | .explicit ops, op => ops.contains op

/-- The `RequestContext` handed to handlers (the original `Request`
object is carried by the source but never consumed by the routing
logic modelled here). -/
structure RequestContext where
  corsHeaders : List (String × String)
  userId : String
  resourceId : Option String
  body : Option JsObject
  params : List (String × String)

/-- A handler invocation result: the response or a thrown error, plus
the platform calls (the `platformRequest` invocations) the handler
performed. -/
abbrev HandlerResult := Except JsError HttpResponse × List PlatformRequestOptions

/-- `HandlerFn`, instrumented with the platform-call log. -/
abbrev HandlerFn := RequestContext → HandlerResult

/-- `paramsToObject`: folds `URLSearchParams` pairs into a plain
object (`obj[key] = value`, later pairs overwriting earlier ones),
yielding the `params` record handed to `platformRequest`. -/
def paramsToObject (params : List (String × String)) : List (String × Option String) :=
  params.foldl
    (fun obj p =>
      if obj.any (fun q => q.1 = p.1) then
        obj.map (fun q => if q.1 = p.1 then (p.1, some p.2) else q)
      else
        obj ++ [(p.1, some p.2)])
    []

/-- JavaScript template interpolation `${v}` of a `string | null`
value: `null` prints as `"null"`. -/
def jsTemplateOptStr : Option String → String
  | some s => s
  | none => "null"

/-- `createDefaultHandlers(platformPath)`: the five default CRUD
handlers, each a thin composition over the platform client.
`platform` is the awaited `platformRequest` (its result, or the error
it throws). -/
def createDefaultHandlers (isDev : Bool)
    (platform : PlatformRequestOptions → Except JsError PlatformResponse)
    (platformPath : String) : Op → HandlerFn
  | .list => fun ctx =>
    let opts : PlatformRequestOptions :=
      { path := platformPath, method := "GET", params := paramsToObject ctx.params,
        userId := some ctx.userId }
    (match platform opts with
      | .ok r => .ok (jsonResponse r.data r.status ctx.corsHeaders)
      | .error e => .error e,
     [opts])
  | .get => fun ctx =>
    let opts : PlatformRequestOptions :=
      { path := platformPath ++ jsTemplateOptStr ctx.resourceId ++ "/", method := "GET",
        userId := some ctx.userId }
    (match platform opts with
      | .ok r => .ok (jsonResponse r.data r.status ctx.corsHeaders)
      | .error e => .error e,
     [opts])
  | .create => fun ctx =>
    match ctx.body with
    | none => (.ok (badRequestResponse isDev "Request body is required" ctx.corsHeaders), [])
    | some b =>
      let opts : PlatformRequestOptions :=
        { path := platformPath, method := "POST", body := some b, userId := some ctx.userId }
      (match platform opts with
        | .ok r => .ok (jsonResponse r.data r.status ctx.corsHeaders)
        | .error e => .error e,
       [opts])
  | .update => fun ctx =>
    match ctx.body with
    | none => (.ok (badRequestResponse isDev "Request body is required" ctx.corsHeaders), [])
    | some b =>
      let opts : PlatformRequestOptions :=
        { path := platformPath ++ jsTemplateOptStr ctx.resourceId ++ "/", method := "PATCH",
          body := some b, userId := some ctx.userId }
      (match platform opts with
        | .ok r => .ok (jsonResponse r.data r.status ctx.corsHeaders)
        | .error e => .error e,
       [opts])
  | .delete => fun ctx =>
    let opts : PlatformRequestOptions :=
      { path := platformPath ++ jsTemplateOptStr ctx.resourceId ++ "/", method := "DELETE",
        userId := some ctx.userId }
    (match platform opts with
      | .ok r =>
        if r.status = 204 then .ok (noContentResponse ctx.corsHeaders)
        else .ok (jsonResponse Json.null r.status ctx.corsHeaders)
      | .error e => .error e,
     [opts])

/-- The handler-table merge of `serveResource`: for each operation,
`custom ?? default` when the operation is enabled, `undefined`
otherwise. -/
def mergeHandlers (enabled : Op → Bool) (custom : Op → Option HandlerFn)
    (defaults : Op → HandlerFn) : Op → Option HandlerFn :=
  fun op => if enabled op then some ((custom op).getD (defaults op)) else none

/-- The `switch (method)` dispatch of `serveResource`, with the JS
truthiness guards on `resourceId` and handler presence; every
uncovered combination falls through to `methodNotAllowedResponse`. -/
def routeResource (isDev : Bool) (handlers : Op → Option HandlerFn) (method : String)
    (ctx : RequestContext) : HandlerResult :=
  let fallback : HandlerResult := (.ok (methodNotAllowedResponse isDev ctx.corsHeaders), [])
  if method = "GET" then
    match strTruthy ctx.resourceId, handlers Op.get with
    | true, some h => h ctx
    | _, _ =>
      match strTruthy ctx.resourceId, handlers Op.list with
      | false, some h => h ctx
      | _, _ => fallback
  else if method = "POST" then
    match strTruthy ctx.resourceId, handlers Op.create with
    | false, some h => h ctx
    | _, _ => fallback
  else if method = "PATCH" ∨ method = "PUT" then
    match strTruthy ctx.resourceId, handlers Op.update with
    | true, some h => h ctx
    | _, _ => fallback
  else if method = "DELETE" then
    match strTruthy ctx.resourceId, handlers Op.delete with
    | true, some h => h ctx
    | _, _ => fallback
  else
    fallback

/-- `serveResource` configuration after defaults: platform path, CORS
handler, enabled-operations spec, and per-operation custom handler
overrides. -/
structure ResourceConfig where
  platformPath : String
  cors : CorsHandler
  operations : OperationsSpec
  handlers : Op → Option HandlerFn

/-- The request data the resource handler reads: method, URL pathname
and search params, `Origin` header, and the result of `req.json()`
(`none` both when absent and when unparseable — the `catch` sets
`body = null`). -/
structure ResourceRequest where
  method : String
  pathname : String
  searchParams : List (String × String)
  origin : Option String
  bodyJson : Option JsObject

/-- The `try/catch` of the serve callback: a thrown error becomes
`serverErrorResponse`. -/
def catchToResponse (isDev : Bool) (corsHeaders : List (String × String))
    (r : HandlerResult) : HttpResponse × List PlatformRequestOptions :=
  (match r.1 with
    | .ok resp => resp
    | .error e => serverErrorResponse isDev corsHeaders (some (e.name, e.message)),
   r.2)

/-- One invocation of the `Deno.serve` handler installed by
`serveResource`.

* `platform` — the awaited `platformRequest` effect;
* `isConfigured` — `isPlatformConfigured()` (the
  `HILLMONITOR_SECRET_KEY` presence check);
* `auth` — the `verifyAuth` outcome (`some userId` on success, `none`
  for `authError || !user`);
* `isDev` — the development-mode flag of the response helpers.

Pipeline, in source order: CORS preflight; configuration check (500);
authentication (401); resource-id extraction; body parse for mutating
methods; context construction; dispatch (falling through to 405); the
outer catch (500). -/
def serveResourceHandle (cfg : ResourceConfig)
    (platform : PlatformRequestOptions → Except JsError PlatformResponse)
    (isDev isConfigured : Bool) (auth : Option String) (req : ResourceRequest) :
    HttpResponse × List PlatformRequestOptions :=
  let enabledOps := getEnabledOperations cfg.operations
  let defaultHandlers := createDefaultHandlers isDev platform cfg.platformPath
  let handlers := mergeHandlers enabledOps cfg.handlers defaultHandlers
  let corsHeaders := cfg.cors.getCorsHeaders req.origin
  if req.method = "OPTIONS" then
    (cfg.cors.handleCorsPrelight req.origin, [])
  else
    catchToResponse isDev corsHeaders
      (if ¬ isConfigured then
        (.ok (errorResponse isDev "Platform API is not configured" 500 corsHeaders none), [])
      else
        match auth with
        | none => (.ok (unauthorizedResponse isDev corsHeaders), [])
        | some userId =>
          let resourceId := extractResourceId req.pathname
          let body :=
            if req.method = "POST" ∨ req.method = "PATCH" ∨ req.method = "PUT" then
              req.bodyJson
            else none
          let ctx : RequestContext :=
            { corsHeaders := corsHeaders, userId := userId, resourceId := resourceId,
              body := body, params := req.searchParams }
          routeResource isDev handlers req.method ctx)

/-! ## Helper lemmas -/

theorem searchParamsSet_lookup (l : List (String × String)) (k v : String) :
    (searchParamsSet l k v).lookup k = some v := by
  induction l with
  | nil => simp [searchParamsSet, List.lookup]
  | cons p rest ih =>
    obtain ⟨a, b⟩ := p
    by_cases h : a = k
    · subst h
      simp [searchParamsSet, List.lookup]
    · have hba : (k == a) = false := beq_eq_false_iff_ne.mpr (Ne.symm h)
      simp [searchParamsSet, h, List.lookup, hba, ih]

theorem searchParamsSet_countP (l : List (String × String)) (k v : String) :
    (searchParamsSet l k v).countP (fun p => p.1 == k) = 1 := by
  induction l with
  | nil => simp [searchParamsSet]
  | cons p rest ih =>
    obtain ⟨a, b⟩ := p
    by_cases h : a = k
    · subst h
      have hz : (rest.filter (fun p => decide (p.1 ≠ a))).countP (fun p => p.1 == a) = 0 := by
        refine List.countP_eq_zero.mpr ?_
        intro p hp
        have hne := (List.mem_filter.mp hp).2
        simp only [decide_eq_true_eq] at hne
        simpa using hne
      simp [searchParamsSet, List.countP_cons, hz]
    · simp [searchParamsSet, h, List.countP_cons, ih]

theorem lookup_map_overwrite (l : JsObject) (k : String) (v : Json)
    (h : l.any (fun p => decide (p.1 = k)) = true) :
    (l.map (fun p => if p.1 = k then (k, v) else p)).lookup k = some v := by
  induction l with
  | nil => simp at h
  | cons p rest ih =>
    obtain ⟨a, b⟩ := p
    rw [List.map_cons]
    by_cases hak : a = k
    · subst hak
      rw [show (if ((a, b) : String × Json).1 = a then ((a, v) : String × Json) else (a, b))
            = (a, v) from if_pos rfl]
      simp [List.lookup]
    · rw [show (if ((a, b) : String × Json).1 = k then ((k, v) : String × Json) else (a, b))
            = (a, b) from if_neg hak]
      have hrest : rest.any (fun p => decide (p.1 = k)) = true := by
        simpa [hak] using h
      have hba : (k == a) = false := beq_eq_false_iff_ne.mpr (Ne.symm hak)
      simp [List.lookup, hba, ih hrest]

theorem lookup_append_absent (l : JsObject) (k : String) (v : Json)
    (h : l.any (fun p => decide (p.1 = k)) = false) :
    ((l ++ [(k, v)]).lookup k) = some v := by
  induction l with
  | nil => simp [List.lookup]
  | cons p rest ih =>
    obtain ⟨a, b⟩ := p
    have hak : ¬ a = k := by
      intro hc
      simp [hc] at h
    have hrest : rest.any (fun p => decide (p.1 = k)) = false := by
      simpa [hak] using h
    have hba : (k == a) = false := beq_eq_false_iff_ne.mpr (Ne.symm hak)
    simp [List.lookup, hba, ih hrest]

theorem jsObjectSet_lookup (l : JsObject) (k : String) (v : Json) :
    (jsObjectSet l k v).lookup k = some v := by
  unfold jsObjectSet
  by_cases h : l.any (fun p => decide (p.1 = k)) = true
  · simp only [h, if_true]
    exact lookup_map_overwrite l k v h
  · have hf : l.any (fun p => decide (p.1 = k)) = false := by
      cases hx : l.any (fun p => decide (p.1 = k)) with
      | false => rfl
      | true => exact absurd hx h
    simp only [hf, Bool.false_eq_true, if_false]
    exact lookup_append_absent l k v hf

/-! ## Claim theorems -/

/-- C3: in `platformRequest`, a GET with user filtering enabled and a
userId present puts `external_user_id = userId` into the outbound query
string; a POST/PATCH/PUT with a non-null body, filtering enabled and a
userId present sends the supplied body plus the key `external_user_id`
set to the userId; with filtering disabled the outbound body equals the
supplied body exactly. -/
theorem platformRequest_identity_scoping :
    (∀ (u : String) (params : List (String × Option String)), u ≠ "" →
      (outboundQuery "GET" true (some u) params).lookup "external_user_id" = some u) ∧
    (∀ (method u : String) (b : JsObject),
      (method = "POST" ∨ method = "PATCH" ∨ method = "PUT") → u ≠ "" →
      outboundBody method true (some u) (some b)
        = some (jsObjectSet b "external_user_id" (Json.str u))) ∧
    (∀ (method : String) (userId : Option String) (body : Option JsObject),
      outboundBody method false userId body = body) := by
  refine ⟨?_, ?_, ?_⟩
  · intro u params hu
    simp [outboundQuery, strTruthy, hu, searchParamsSet_lookup]
  · intro method u b hm hu
    simp [outboundBody, hm, strTruthy, hu]
  · intro method userId body
    simp [outboundBody]

/-- C3 witness: concrete instantiation — POST of `{x:1}` as user `u1`
with filtering on carries `{x:1, external_user_id:"u1"}`. -/
theorem platformRequest_identity_scoping_witness :
    outboundBody "POST" true (some "u1") (some [("x", Json.num 1)])
      = some [("x", Json.num 1), ("external_user_id", Json.str "u1")] := by
  have h := platformRequest_identity_scoping.2.1 "POST" "u1" [("x", Json.num 1)]
    (Or.inl rfl) (by decide)
  rw [h]
  rfl

/-- C10: the injected `external_user_id` always overwrites any
caller-supplied value: for GET the final query maps the key to the
userId and holds exactly one pair with that key, whatever `params`
contained; for a mutating method with a body, the prepared outbound
body maps the key to the userId, whatever the supplied body
contained. -/
theorem platformRequest_identity_unspoofable :
    (∀ (u : String) (params : List (String × Option String)), u ≠ "" →
      (outboundQuery "GET" true (some u) params).lookup "external_user_id" = some u ∧
      (outboundQuery "GET" true (some u) params).countP
        (fun p => p.1 == "external_user_id") = 1) ∧
    (∀ (method u : String) (b : JsObject),
      (method = "POST" ∨ method = "PATCH" ∨ method = "PUT") → u ≠ "" →
      ∀ rb : JsObject, outboundBody method true (some u) (some b) = some rb →
        rb.lookup "external_user_id" = some (Json.str u)) := by
  constructor
  · intro u params hu
    constructor
    · simp [outboundQuery, strTruthy, hu, searchParamsSet_lookup]
    · simp [outboundQuery, strTruthy, hu, searchParamsSet_countP]
  · intro method u b hm hu rb hrb
    simp [outboundBody, hm, strTruthy, hu] at hrb
    rw [← hrb]
    exact jsObjectSet_lookup b "external_user_id" (Json.str u)

/-- C10 witness: a caller-supplied `external_user_id` in both query
params and body is overwritten by the authenticated identity. -/
theorem platformRequest_identity_unspoofable_witness :
    ((outboundQuery "GET" true (some "u1")
        [("external_user_id", some "evil")]).lookup "external_user_id" = some "u1" ∧
      (outboundQuery "GET" true (some "u1")
        [("external_user_id", some "evil")]).countP
          (fun p => p.1 == "external_user_id") = 1) ∧
    ∀ rb : JsObject,
      outboundBody "POST" true (some "u1") (some [("external_user_id", Json.str "evil")])
        = some rb → rb.lookup "external_user_id" = some (Json.str "u1") :=
  ⟨platformRequest_identity_unspoofable.1 "u1" [("external_user_id", some "evil")] (by decide),
   platformRequest_identity_unspoofable.2 "POST" "u1" [("external_user_id", Json.str "evil")]
     (Or.inl rfl) (by decide)⟩

/-- C4: when the fetch rejects with the abort error (the 30-second
timeout fired), `platformRequest` returns the
`{data: null, status: 504, error: "Request timeout"}` result normally;
when it rejects with any other error, the error is re-thrown to the
caller. -/
theorem platformRequest_timeout_504_others_rethrown
    (apiUrl secretKey : String) (filterByUser : Bool)
    (fetch : FetchRequest → FetchOutcome) (parseJson : String → Option Json)
    (options : PlatformRequestOptions) (e : JsError)
    (hfetch : fetch (outboundFetchRequest apiUrl secretKey filterByUser options)
      = FetchOutcome.failure e) :
    (e.name = "AbortError" →
      platformRequest apiUrl secretKey filterByUser fetch parseJson options
        = .ok { data := Json.null, status := 504, error := some "Request timeout" }) ∧
    (e.name ≠ "AbortError" →
      platformRequest apiUrl secretKey filterByUser fetch parseJson options
        = .error e) := by
  constructor
  · intro hn
    simp [platformRequest, hfetch, hn]
  · intro hn
    simp [platformRequest, hfetch, hn]

/-- C4 witness: an aborted fetch yields the 504 timeout result; a
network fault named `TypeError` is re-thrown. -/
theorem platformRequest_timeout_504_witness :
    platformRequest "https://api.hillmonitor.ca" "k" true
      (fun _ => FetchOutcome.failure ⟨"AbortError", "aborted"⟩) (fun _ => none)
      { path := "/api/v1/alerts/", method := "GET" }
      = .ok { data := Json.null, status := 504, error := some "Request timeout" } ∧
    platformRequest "https://api.hillmonitor.ca" "k" true
      (fun _ => FetchOutcome.failure ⟨"TypeError", "network error"⟩) (fun _ => none)
      { path := "/api/v1/alerts/", method := "GET" }
      = .error ⟨"TypeError", "network error"⟩ :=
  ⟨(platformRequest_timeout_504_others_rethrown "https://api.hillmonitor.ca" "k" true
      (fun _ => FetchOutcome.failure ⟨"AbortError", "aborted"⟩) (fun _ => none)
      { path := "/api/v1/alerts/", method := "GET" } ⟨"AbortError", "aborted"⟩ rfl).1 rfl,
   (platformRequest_timeout_504_others_rethrown "https://api.hillmonitor.ca" "k" true
      (fun _ => FetchOutcome.failure ⟨"TypeError", "network error"⟩) (fun _ => none)
      { path := "/api/v1/alerts/", method := "GET" } ⟨"TypeError", "network error"⟩ rfl).2
     (by simp)⟩

/-- C9 (counterexample): `platformRequest` with method GET and a
supplied body hands the serialized body to the transport — the outbound
fetch request does carry a body, contradicting the claim at this
input. -/
theorem platformRequest_get_with_body_counterexample :
    (outboundFetchRequest "https://api.hillmonitor.ca" "k" true
      { path := "/api/v1/alerts/", method := "GET",
        body := some [("x", Json.num 1)], userId := some "u1" }).body ≠ none := by
  intro h
  simp [outboundFetchRequest, outboundBody] at h

/-- C9 (amended): for a GET `platformRequest` with no supplied body —
the shape of every GET issued by this repository — the outbound fetch
request carries no body. -/
theorem platformRequest_get_without_body_no_body
    (apiUrl secretKey : String) (filterByUser : Bool) (options : PlatformRequestOptions)
    (hm : options.method = "GET") (hb : options.body = none) :
    (outboundFetchRequest apiUrl secretKey filterByUser options).body = none := by
  simp [outboundFetchRequest, outboundBody, hm, hb]

/-- C9 witness: concrete GET without body. -/
theorem platformRequest_get_without_body_no_body_witness :
    (outboundFetchRequest "https://api.hillmonitor.ca" "k" true
      { path := "/api/v1/alerts/", method := "GET" }).body = none :=
  platformRequest_get_without_body_no_body "https://api.hillmonitor.ca" "k" true
    { path := "/api/v1/alerts/", method := "GET" } rfl rfl

/-- C6: the default `create` and `update` handlers, handed a context
whose parsed body is null, return the 400 bad-request response and make
no outbound platform call. -/
theorem default_create_update_missing_body_400
    (isDev : Bool) (platform : PlatformRequestOptions → Except JsError PlatformResponse)
    (platformPath : String) (ctx : RequestContext) (hb : ctx.body = none) :
    createDefaultHandlers isDev platform platformPath Op.create ctx
      = (.ok (badRequestResponse isDev "Request body is required" ctx.corsHeaders), []) ∧
    createDefaultHandlers isDev platform platformPath Op.update ctx
      = (.ok (badRequestResponse isDev "Request body is required" ctx.corsHeaders), []) ∧
    (badRequestResponse isDev "Request body is required" ctx.corsHeaders).status = 400 := by
  refine ⟨?_, ?_, rfl⟩ <;> simp [createDefaultHandlers, hb]

/-- C6 witness: concrete context with a null body. -/
theorem default_create_update_missing_body_400_witness :
    createDefaultHandlers false (fun _ => .ok { data := Json.null, status := 200 }) "/p/"
      Op.create
      { corsHeaders := [], userId := "u", resourceId := none, body := none, params := [] }
      = (.ok (badRequestResponse false "Request body is required" []), []) :=
  (default_create_update_missing_body_400 false
    (fun _ => .ok { data := Json.null, status := 200 }) "/p/"
    { corsHeaders := [], userId := "u", resourceId := none, body := none, params := [] }
    rfl).1

/-- A resource id produced by `extractResourceId` is a non-empty
segment (it is drawn from the `filter(Boolean)` result). -/
theorem extractResourceId_ne_empty {p r : String}
    (h : extractResourceId p = some r) : r ≠ "" := by
  unfold extractResourceId at h
  by_cases hlen : ((jsSplit p '/').filter (fun s => s ≠ "")).length ≥ 2
  · rw [if_pos hlen] at h
    obtain ⟨hne, hr⟩ := List.mem_getLast?_eq_getLast (Option.mem_def.mpr h)
    have hmem := hr ▸ List.getLast_mem hne
    have := (List.mem_filter.mp hmem).2
    simpa using this
  · rw [if_neg hlen] at h
    exact absurd h (by simp)

/-- The path-shape ↔ resource-id-presence invariant, plus the value of
the id when present. -/
theorem extractResourceId_spec (p : String) :
    ((extractResourceId p).isSome ↔
      2 ≤ ((jsSplit p '/').filter (fun s => s ≠ "")).length) ∧
    (∀ r, extractResourceId p = some r →
      ((jsSplit p '/').filter (fun s => s ≠ "")).getLast? = some r) := by
  constructor
  · unfold extractResourceId
    by_cases hlen : ((jsSplit p '/').filter (fun s => s ≠ "")).length ≥ 2
    · have hne : (jsSplit p '/').filter (fun s => s ≠ "") ≠ [] := by
        intro hc
        rw [hc] at hlen
        simp at hlen
      rw [if_pos hlen, List.getLast?_eq_getLast_of_ne_nil hne]
      exact iff_of_true rfl hlen
    · rw [if_neg hlen]
      exact iff_of_false (by simp) hlen
  · intro r hr
    unfold extractResourceId at hr
    by_cases hlen : ((jsSplit p '/').filter (fun s => s ≠ "")).length ≥ 2
    · rwa [if_pos hlen] at hr
    · rw [if_neg hlen] at hr
      exact absurd hr (by simp)

/-- The method/resource-id-presence → operation table of the CRUD
router (spec §4.3): GET maps to `get`/`list` by id presence, POST to
`create` only without an id, PATCH/PUT to `update` and DELETE to
`delete` only with an id; every other combination is unmapped. -/
def mappedOp (method : String) (resourceIdPresent : Bool) : Option Op :=
  if method = "GET" then some (if resourceIdPresent then Op.get else Op.list)
  else if method = "POST" then (if resourceIdPresent then none else some Op.create)
  else if method = "PATCH" ∨ method = "PUT" then
    (if resourceIdPresent then some Op.update else none)
  else if method = "DELETE" then (if resourceIdPresent then some Op.delete else none)
  else none

theorem mergeHandlers_disabled (enabled : Op → Bool) (custom : Op → Option HandlerFn)
    (defaults : Op → HandlerFn) (op : Op) (h : enabled op = false) :
    mergeHandlers enabled custom defaults op = none := by
  simp [mergeHandlers, h]

theorem mergeHandlers_enabled (enabled : Op → Bool) (custom : Op → Option HandlerFn)
    (defaults : Op → HandlerFn) (op : Op) (h : enabled op = true) :
    mergeHandlers enabled custom defaults op = some ((custom op).getD (defaults op)) := by
  simp [mergeHandlers, h]

/-- Every method/resource-id combination whose operation is unmapped or
whose handler-table entry is `undefined` falls through the `switch` to
the method-not-allowed response. -/
theorem routeResource_fallback (isDev : Bool) (handlers : Op → Option HandlerFn)
    (method : String) (ctx : RequestContext)
    (h : ∀ op, mappedOp method (strTruthy ctx.resourceId) = some op → handlers op = none) :
    routeResource isDev handlers method ctx
      = (.ok (methodNotAllowedResponse isDev ctx.corsHeaders), []) := by
  by_cases hG : method = "GET"
  · cases hr : strTruthy ctx.resourceId with
    | true =>
      have hget : handlers Op.get = none := h Op.get (by simp [mappedOp, hG, hr])
      simp [routeResource, hG, hr, hget]
    | false =>
      have hlist : handlers Op.list = none := h Op.list (by simp [mappedOp, hG, hr])
      simp [routeResource, hG, hr, hlist]
  · by_cases hP : method = "POST"
    · cases hr : strTruthy ctx.resourceId with
      | true => simp [routeResource, hG, hP, hr]
      | false =>
        have hc : handlers Op.create = none := h Op.create (by simp [mappedOp, hG, hP, hr])
        simp [routeResource, hG, hP, hr, hc]
    · by_cases hU : method = "PATCH" ∨ method = "PUT"
      · cases hr : strTruthy ctx.resourceId with
        | true =>
          have hu : handlers Op.update = none :=
            h Op.update (by simp [mappedOp, hG, hP, hU, hr])
          simp [routeResource, hG, hP, hU, hr, hu]
        | false => simp [routeResource, hG, hP, hU, hr]
      · by_cases hD : method = "DELETE"
        · cases hr : strTruthy ctx.resourceId with
          | true =>
            have hd : handlers Op.delete = none :=
              h Op.delete (by simp [mappedOp, hG, hP, hU, hD, hr])
            simp [routeResource, hG, hP, hU, hD, hr, hd]
          | false => simp [routeResource, hG, hP, hU, hD, hr]
        · simp [routeResource, hG, hP, hU, hD]

/-- Once preflight, configuration and authentication pass, the serve
callback is the dispatch over the built context, wrapped in the outer
catch. -/
theorem serveResourceHandle_dispatch (cfg : ResourceConfig)
    (platform : PlatformRequestOptions → Except JsError PlatformResponse)
    (isDev : Bool) (uid : String) (req : ResourceRequest)
    (hopt : req.method ≠ "OPTIONS") :
    serveResourceHandle cfg platform isDev true (some uid) req
      = catchToResponse isDev (cfg.cors.getCorsHeaders req.origin)
          (routeResource isDev
            (mergeHandlers (getEnabledOperations cfg.operations) cfg.handlers
              (createDefaultHandlers isDev platform cfg.platformPath))
            req.method
            { corsHeaders := cfg.cors.getCorsHeaders req.origin, userId := uid,
              resourceId := extractResourceId req.pathname,
              body := if req.method = "POST" ∨ req.method = "PATCH" ∨ req.method = "PUT"
                      then req.bodyJson else none,
              params := req.searchParams }) := by
  unfold serveResourceHandle
  rw [if_neg hopt]
  simp

/-- C1: with the platform configured and the request authenticated,
every request whose method/resource-id combination maps to a disabled
or unmapped operation — for any configured enabled-operation subset and
any custom-handler overrides — receives the 405 method-not-allowed
response, never a 500. -/
theorem resource_route_disabled_or_unmapped_405
    (cfg : ResourceConfig) (platform : PlatformRequestOptions → Except JsError PlatformResponse)
    (isDev : Bool) (uid : String) (req : ResourceRequest)
    (hopt : req.method ≠ "OPTIONS")
    (hdis : ∀ op, mappedOp req.method (strTruthy (extractResourceId req.pathname)) = some op →
      getEnabledOperations cfg.operations op = false) :
    (serveResourceHandle cfg platform isDev true (some uid) req).1
      = methodNotAllowedResponse isDev (cfg.cors.getCorsHeaders req.origin) ∧
    (serveResourceHandle cfg platform isDev true (some uid) req).1.status = 405 ∧
    (serveResourceHandle cfg platform isDev true (some uid) req).1.status ≠ 500 := by
  have hroute := routeResource_fallback isDev
    (mergeHandlers (getEnabledOperations cfg.operations) cfg.handlers
      (createDefaultHandlers isDev platform cfg.platformPath))
    req.method
    { corsHeaders := cfg.cors.getCorsHeaders req.origin, userId := uid,
      resourceId := extractResourceId req.pathname,
      body := if req.method = "POST" ∨ req.method = "PATCH" ∨ req.method = "PUT"
              then req.bodyJson else none,
      params := req.searchParams }
    (fun op hop => mergeHandlers_disabled _ _ _ op (hdis op hop))
  rw [serveResourceHandle_dispatch cfg platform isDev uid req hopt, hroute]
  refine ⟨rfl, rfl, by simp [methodNotAllowedResponse, errorResponse, jsonResponse, catchToResponse]⟩

/-- C1 witness: a read-only resource receiving `DELETE /collection/42`
answers 405. -/
theorem resource_route_disabled_or_unmapped_405_witness :
    (serveResourceHandle
      { platformPath := "/api/v1/things/",
        cors := ⟨fun _ => [], fun _ => { status := 200, body := none, headers := [] }⟩,
        operations := OperationsSpec.read,
        handlers := fun _ => none }
      (fun _ => .ok { data := Json.null, status := 200 })
      false true (some "u")
      { method := "DELETE", pathname := "/collection/42", searchParams := [],
        origin := none, bodyJson := none }).1.status = 405 := by
  refine (resource_route_disabled_or_unmapped_405 _ _ _ _ _ (by decide) ?_).2.1
  intro op hop
  have h1 : mappedOp "DELETE" (strTruthy (extractResourceId "/collection/42"))
      = some Op.delete := by decide
  rw [h1] at hop
  cases hop
  decide

theorem routeResource_get_with_id (isDev : Bool) (handlers : Op → Option HandlerFn)
    (ctx : RequestContext) (r : String) (hfn : HandlerFn)
    (hr : ctx.resourceId = some r) (hne : r ≠ "") (hh : handlers Op.get = some hfn) :
    routeResource isDev handlers "GET" ctx = hfn ctx := by
  have ht : strTruthy ctx.resourceId = true := by simp [hr, strTruthy, hne]
  simp [routeResource, ht, hh]

theorem routeResource_get_collection (isDev : Bool) (handlers : Op → Option HandlerFn)
    (ctx : RequestContext) (hfn : HandlerFn)
    (hr : ctx.resourceId = none) (hh : handlers Op.list = some hfn) :
    routeResource isDev handlers "GET" ctx = hfn ctx := by
  have ht : strTruthy ctx.resourceId = false := by simp [hr, strTruthy]
  simp [routeResource, ht, hh]

/-- C5: `resourceId` is non-null exactly when the URL path has at least
two non-empty segments, and then equals the final non-empty segment;
consequently an authenticated GET on the collection path dispatches to
the effective `list` handler (with a null resourceId in its context)
and an authenticated GET with a trailing id segment dispatches to the
effective `get` handler with that id in its context. -/
theorem resourceId_invariant_and_get_dispatch :
    (∀ p : String,
      ((extractResourceId p).isSome ↔
        2 ≤ ((jsSplit p '/').filter (fun s => s ≠ "")).length) ∧
      (∀ r, extractResourceId p = some r →
        ((jsSplit p '/').filter (fun s => s ≠ "")).getLast? = some r)) ∧
    (∀ (cfg : ResourceConfig)
        (platform : PlatformRequestOptions → Except JsError PlatformResponse)
        (isDev : Bool) (uid : String) (req : ResourceRequest),
      req.method = "GET" →
      getEnabledOperations cfg.operations Op.list = true →
      extractResourceId req.pathname = none →
      serveResourceHandle cfg platform isDev true (some uid) req
        = catchToResponse isDev (cfg.cors.getCorsHeaders req.origin)
            (((cfg.handlers Op.list).getD
                (createDefaultHandlers isDev platform cfg.platformPath Op.list))
              { corsHeaders := cfg.cors.getCorsHeaders req.origin, userId := uid,
                resourceId := none, body := none, params := req.searchParams })) ∧
    (∀ (cfg : ResourceConfig)
        (platform : PlatformRequestOptions → Except JsError PlatformResponse)
        (isDev : Bool) (uid r : String) (req : ResourceRequest),
      req.method = "GET" →
      getEnabledOperations cfg.operations Op.get = true →
      extractResourceId req.pathname = some r →
      serveResourceHandle cfg platform isDev true (some uid) req
        = catchToResponse isDev (cfg.cors.getCorsHeaders req.origin)
            (((cfg.handlers Op.get).getD
                (createDefaultHandlers isDev platform cfg.platformPath Op.get))
              { corsHeaders := cfg.cors.getCorsHeaders req.origin, userId := uid,
                resourceId := some r, body := none, params := req.searchParams })) := by
  refine ⟨extractResourceId_spec, ?_, ?_⟩
  · intro cfg platform isDev uid req hm hlist hrid
    have hopt : req.method ≠ "OPTIONS" := by rw [hm]; decide
    rw [serveResourceHandle_dispatch cfg platform isDev uid req hopt, hm, hrid]
    have hbody : (if ("GET" : String) = "POST" ∨ ("GET" : String) = "PATCH" ∨
        ("GET" : String) = "PUT" then req.bodyJson else none) = none := by simp
    rw [hbody]
    rw [routeResource_get_collection isDev _ _ _ rfl
      (mergeHandlers_enabled (getEnabledOperations cfg.operations) cfg.handlers
        (createDefaultHandlers isDev platform cfg.platformPath) Op.list hlist)]
  · intro cfg platform isDev uid r req hm hget hrid
    have hopt : req.method ≠ "OPTIONS" := by rw [hm]; decide
    have hne : r ≠ "" := extractResourceId_ne_empty hrid
    rw [serveResourceHandle_dispatch cfg platform isDev uid req hopt, hm, hrid]
    have hbody : (if ("GET" : String) = "POST" ∨ ("GET" : String) = "PATCH" ∨
        ("GET" : String) = "PUT" then req.bodyJson else none) = none := by simp
    rw [hbody]
    rw [routeResource_get_with_id isDev _ _ r _ rfl hne
      (mergeHandlers_enabled (getEnabledOperations cfg.operations) cfg.handlers
        (createDefaultHandlers isDev platform cfg.platformPath) Op.get hget)]

/-- C5 witness: `GET /collection/42` on an all-operations resource with
default handlers proxies `GET <platformPath>42/` for the user and
returns the platform's JSON answer. -/
theorem resourceId_invariant_and_get_dispatch_witness :
    extractResourceId "/collection/42" = some "42" ∧
    serveResourceHandle
      { platformPath := "/api/v1/things/",
        cors := ⟨fun _ => [], fun _ => { status := 200, body := none, headers := [] }⟩,
        operations := OperationsSpec.all,
        handlers := fun _ => none }
      (fun _ => .ok { data := Json.null, status := 200 })
      false true (some "u")
      { method := "GET", pathname := "/collection/42", searchParams := [],
        origin := none, bodyJson := none }
      = (jsonResponse Json.null 200 [],
         [{ path := "/api/v1/things/42/", method := "GET", userId := some "u" }]) := by
  constructor
  · decide
  · rw [resourceId_invariant_and_get_dispatch.2.2
      { platformPath := "/api/v1/things/",
        cors := ⟨fun _ => [], fun _ => { status := 200, body := none, headers := [] }⟩,
        operations := OperationsSpec.all,
        handlers := fun _ => none }
      (fun _ => .ok { data := Json.null, status := 200 })
      false "u" "42"
      { method := "GET", pathname := "/collection/42", searchParams := [],
        origin := none, bodyJson := none }
      rfl rfl (by decide)]
    rfl

/-- Reading a property of a present, non-null value does not throw:
it yields the plain (possibly undefined) lookup. -/
theorem jsGetChecked_some_of_ne_null (j : Json) (key : String) (h : j ≠ Json.null) :
    jsGetChecked (some j) key = .ok (jsGet j key) := by
  cases j with
  | null => exact absurd rfl h
  | bool b => rfl
  | num n => rfl
  | str s => rfl
  | arr elems => rfl
  | obj fields => rfl

/-- C8 (amended): a webhook POST with the secret configured, a
verifying signature and a body parsing to a non-null JSON value whose
event tag has no registered callback is answered 200
`{received: true}` with no callback invoked.  (A correctly signed body
parsing to JSON null instead hits a TypeError on the discriminant read
and is answered 500 — see the counterexample.) -/
theorem webhook_unmatched_event_ack_no_dispatch
    (cfg : WebhookConfig) (parseJson : String → Option Json) (isDev : Bool)
    (req : WebhookRequest) (payload : Json)
    (hm : req.method = "POST")
    (hsec : strTruthy cfg.secret = true)
    (hsig : verifyWebhookSignature req.bodyText req.signature (cfg.secret.getD "") = .ok ())
    (hparse : parseJson req.bodyText = some payload)
    (hnull : payload ≠ Json.null)
    (hmeet : jsGet payload "event" = some (Json.str "meeting.processed") →
      cfg.onMeetingProcessed = none)
    (hgaz : jsGet payload "event" = some (Json.str "gazette.processed") →
      cfg.onGazetteProcessed = none) :
    serveWebhookHandle cfg parseJson isDev req
      = (successResponse (Json.obj [("received", Json.bool true)])
          (match cfg.cors with
            | some c => c.getCorsHeaders req.origin
            | none => []), []) ∧
    (serveWebhookHandle cfg parseJson isDev req).1.status = 200 := by
  have key : serveWebhookHandle cfg parseJson isDev req
      = (successResponse (Json.obj [("received", Json.bool true)])
          (match cfg.cors with
            | some c => c.getCorsHeaders req.origin
            | none => []), []) := by
    have hopt : ¬ (("POST" : String) = "OPTIONS" ∧ cfg.cors.isSome = true) := by
      rintro ⟨h1, _⟩
      exact absurd h1 (by decide)
    unfold serveWebhookHandle
    simp only [hm, hsec, hsig, hparse, jsGetChecked_some_of_ne_null payload "event" hnull,
      dif_neg hopt]
    simp only [ne_eq, not_true_eq_false, Bool.not_true, if_false, reduceIte]
    split
    · rename_i heq
      rw [hmeet heq]
    · rename_i heq
      rw [hgaz heq]
    · rfl
  refine ⟨key, ?_⟩
  rw [key]
  rfl

set_option maxRecDepth 40000 in
/-- C8 witness: a correctly signed POST carrying
`{event: "unknown.event"}` with no callbacks registered is acknowledged
with 200 `{received: true}` and an empty invocation log. -/
theorem webhook_unmatched_event_ack_witness :
    serveWebhookHandle
      { cors := none, secret := some "s",
        onMeetingProcessed := none, onGazetteProcessed := none }
      (fun _ => some (Json.obj [("event", Json.str "unknown.event")]))
      false
      { method := "POST", origin := none,
        signature :=
          some "sha256=47d920ed90784dc5eae635bfd0824f612d05f09f9a47f60390de873ad37e546b",
        bodyText := "abc" }
      = (successResponse (Json.obj [("received", Json.bool true)]) [], []) := by
  refine (webhook_unmatched_event_ack_no_dispatch
    { cors := none, secret := some "s",
      onMeetingProcessed := none, onGazetteProcessed := none }
    (fun _ => some (Json.obj [("event", Json.str "unknown.event")]))
    false
    { method := "POST", origin := none,
      signature :=
        some "sha256=47d920ed90784dc5eae635bfd0824f612d05f09f9a47f60390de873ad37e546b",
      bodyText := "abc" }
    (Json.obj [("event", Json.str "unknown.event")])
    rfl rfl ?_ rfl (fun hc => Json.noConfusion hc) (fun _ => rfl) (fun _ => rfl)).1
  rfl

set_option maxRecDepth 100000 in
/-- C8 (counterexample): a correctly signed webhook POST whose body is
the JSON text `"null"` parses successfully (to JSON null), matches no
registered callback — and is answered 500, not 200: the switch
discriminant read `payload.event` throws a TypeError that the outer
catch converts to the server-error response. -/
theorem webhook_null_payload_500_counterexample :
    (serveWebhookHandle
      { cors := none, secret := some "s",
        onMeetingProcessed := none, onGazetteProcessed := none }
      (fun _ => some Json.null)
      false
      { method := "POST", origin := none,
        signature :=
          some "sha256=5987a85d4a08fac9a6453727498437b6eb4a55834ae26fede33c17347634f062",
        bodyText := "null" }).1.status = 500 := by
  rfl

/-! ## Signature-verification lemmas -/

theorem prefixed_header_ne_empty (rest : String) : ("sha256=" ++ rest) ≠ "" := by
  intro hc
  have hlen := congrArg (fun s => s.data.length) hc
  simp only [String.data_append, List.length_append] at hlen
  rw [show ("sha256=" : String).data.length = 7 from rfl,
      show ("" : String).data.length = 0 from rfl] at hlen
  omega

theorem jsStartsWith_prefix_append (rest : String) :
    jsStartsWith ("sha256=" ++ rest) "sha256=" = true := by
  unfold jsStartsWith
  rw [String.data_append]
  exact List.isPrefixOf_iff_prefix.mpr (List.prefix_append _ _)

theorem jsSlice_prefix_append (rest : String) :
    jsSlice ("sha256=" ++ rest) 7 = rest := by
  unfold jsSlice
  rw [String.data_append, List.drop_left' (show ("sha256=" : String).data.length = 7 from rfl)]

/-- Behaviour of the verifier on a well-formed `"sha256=" ++ rest`
header: accept exactly when `rest` is the expected digest, mismatch
otherwise. -/
theorem verifyWebhookSignature_prefixed (payload secret rest : String) :
    verifyWebhookSignature payload (some ("sha256=" ++ rest)) secret
      = if rest = hmacSha256Hex secret payload then .ok ()
        else .error .invalidSignature := by
  have h1 : strTruthy (some ("sha256=" ++ rest)) = true := by
    simp [strTruthy, prefixed_header_ne_empty rest]
  unfold verifyWebhookSignature
  simp only [h1, Option.getD_some, jsStartsWith_prefix_append, jsSlice_prefix_append,
    not_true_eq_false, if_false, Bool.not_true, ite_false, reduceIte]
  by_cases h : rest = hmacSha256Hex secret payload
  · simp [h]
  · simp [h]

/-- Soundness: the verifier accepts only the `"sha256=" ++ digest`
header. -/
theorem verifyWebhookSignature_ok_sound (payload secret sig : String)
    (h : verifyWebhookSignature payload (some sig) secret = .ok ()) :
    sig = "sha256=" ++ hmacSha256Hex secret payload := by
  unfold verifyWebhookSignature at h
  split at h
  · exact absurd h (by simp)
  · rename_i hc1
    simp only [Option.getD_some] at h
    split at h
    · exact absurd h (by simp)
    · rename_i hc2
      split at h
      · exact absurd h (by simp)
      · rename_i hc3
        have hpre : ("sha256=" : String).data <+: sig.data := by
          have hsw : jsStartsWith sig "sha256=" = true := not_not.mp hc2
          exact List.isPrefixOf_iff_prefix.mp (by simpa [jsStartsWith] using hsw)
        obtain ⟨t, ht⟩ := hpre
        have hslice : jsSlice sig 7 = ⟨t⟩ := by
          unfold jsSlice
          rw [← ht, List.drop_left' (show ("sha256=" : String).data.length = 7 from rfl)]
        have heq : jsSlice sig 7 = hmacSha256Hex secret payload := not_not.mp hc3
        have ht2 : t = (hmacSha256Hex secret payload).data :=
          congrArg String.data (hslice.symm.trans heq)
        refine String.ext ?_
        rw [String.data_append, ← ht, ht2]

/-- A single-character mutation of `orig`: equal length, a differing
character at exactly one position, every other position unchanged. -/
def oneCharMutation (orig mutated : String) : Prop :=
  mutated.data.length = orig.data.length ∧
  ∃ i, i < orig.data.length ∧ mutated.data[i]? ≠ orig.data[i]? ∧
    ∀ j, j < orig.data.length → j ≠ i → mutated.data[j]? = orig.data[j]?

/-- C7: `verifyWebhookSignature` throws the missing-signature error
when the signature is null; for a present well-formed signature it
succeeds exactly when the presented hex digest equals the HMAC-SHA256
hex digest of the payload under the secret and throws the mismatch
error exactly when it does not; and it succeeds only on
`"sha256=" ++` that digest. -/
theorem verify_missing_mismatch_exactness (payload secret : String) :
    verifyWebhookSignature payload none secret = .error .missingSignature ∧
    (∀ rest : String,
      (verifyWebhookSignature payload (some ("sha256=" ++ rest)) secret = .ok () ↔
        rest = hmacSha256Hex secret payload) ∧
      (verifyWebhookSignature payload (some ("sha256=" ++ rest)) secret
          = .error .invalidSignature ↔ rest ≠ hmacSha256Hex secret payload)) ∧
    (∀ sig : String, verifyWebhookSignature payload (some sig) secret = .ok () →
      sig = "sha256=" ++ hmacSha256Hex secret payload) := by
  refine ⟨?_, ?_, verifyWebhookSignature_ok_sound payload secret⟩
  · simp [verifyWebhookSignature, strTruthy]
  · intro rest
    constructor
    · rw [verifyWebhookSignature_prefixed]
      by_cases h : rest = hmacSha256Hex secret payload
      · simp [h]
      · simp [h]
    · rw [verifyWebhookSignature_prefixed]
      by_cases h : rest = hmacSha256Hex secret payload
      · simp [h]
      · simp [h]

/-- C7 witness: a null signature is rejected as missing; the exact
prefixed digest is accepted. -/
theorem verify_missing_mismatch_exactness_witness :
    verifyWebhookSignature "x" none "k" = .error .missingSignature ∧
    verifyWebhookSignature "x" (some ("sha256=" ++ hmacSha256Hex "k" "x")) "k"
      = .ok () :=
  ⟨(verify_missing_mismatch_exactness "x" "k").1,
   ((verify_missing_mismatch_exactness "x" "k").2.1 (hmacSha256Hex "k" "x")).1.mpr rfl⟩

/-- C2 (amended): for payload `"abc"` and secret `"s"`,
`verifyWebhookSignature` accepts exactly the signature string
`"sha256="` followed by the HMAC-SHA256 hex digest of `"abc"` under
`"s"`, and rejects every signature whose digest part is a
single-character mutation of that digest; the bare digest itself is
rejected (format error), see the counterexample. -/
theorem verify_abc_s_accepts_exactly :
    (∀ sig : String,
      verifyWebhookSignature "abc" (some sig) "s" = .ok () ↔
        sig = "sha256=" ++ hmacSha256Hex "s" "abc") ∧
    (∀ m : String, oneCharMutation (hmacSha256Hex "s" "abc") m →
      verifyWebhookSignature "abc" (some ("sha256=" ++ m)) "s"
        = .error .invalidSignature) := by
  constructor
  · intro sig
    constructor
    · exact verifyWebhookSignature_ok_sound "abc" "s" sig
    · intro h
      rw [h, verifyWebhookSignature_prefixed]
      simp
  · intro m hmut
    have hne : m ≠ hmacSha256Hex "s" "abc" := by
      obtain ⟨hlen, i, hi, hneq, _⟩ := hmut
      intro hc
      exact hneq (by rw [hc])
    rw [verifyWebhookSignature_prefixed]
    simp [hne]

set_option maxRecDepth 100000 in
/-- C2 (counterexample): the signature string equal to the bare
HMAC-SHA256 hex digest of `"abc"` under `"s"` — the string the claim
says is accepted — is rejected with the format error, because the
verifier demands a `"sha256="` prefix. -/
theorem verify_bare_digest_rejected :
    verifyWebhookSignature "abc" (some (hmacSha256Hex "s" "abc")) "s"
      = .error .invalidFormat := by
  rfl

set_option maxRecDepth 100000 in
/-- C2 witness: the prefixed digest is accepted; mutating the first
digest character is rejected as a signature mismatch. -/
theorem verify_abc_s_accepts_exactly_witness :
    verifyWebhookSignature "abc"
      (some "sha256=47d920ed90784dc5eae635bfd0824f612d05f09f9a47f60390de873ad37e546b") "s"
      = .ok () ∧
    verifyWebhookSignature "abc"
      (some "sha256=07d920ed90784dc5eae635bfd0824f612d05f09f9a47f60390de873ad37e546b") "s"
      = .error .invalidSignature := by
  have hd : hmacSha256Hex "s" "abc"
      = "47d920ed90784dc5eae635bfd0824f612d05f09f9a47f60390de873ad37e546b" := by rfl
  constructor
  · refine (verify_abc_s_accepts_exactly.1 _).mpr ?_
    rw [hd]
    rfl
  · refine verify_abc_s_accepts_exactly.2
      "07d920ed90784dc5eae635bfd0824f612d05f09f9a47f60390de873ad37e546b" ?_
    rw [hd]
    exact ⟨by decide, 0, by decide, by decide, by decide⟩
